import Mathlib

/-!
Verification of the HTML-to-PDF/DOCX conversion service (src/main.py).

The Python source is shallowly embedded: Python strings become lists of
characters, the effectful request pipeline becomes explicit state passing
over a `World` record, and each fallible external operation (browser
launch, page load, printing, temp-file creation, the pandoc subprocess,
file deletion, stat) is driven by an environment record that says whether
the operation succeeds or raises, and with which message.  Python
exceptions are modelled by `Except Str`, and the semantics of Python
try/finally and try/except blocks is captured once by the combinators
`tryFinallyAct` and `tryExceptAct` and reused by every embedded function.
-/

/-- Python strings are modelled as lists of unicode characters. -/
abbrev Str := List Char

/-- Decidable range check on naturals, used for unicode tables. -/
def inRange (lo hi n : Nat) : Bool :=
  decide (lo ≤ n ∧ n ≤ hi)

/-- Python's `str.isalnum` on a single character.  Python's predicate is
unicode-aware: it is true for every unicode letter, digit and numeral, not
only for ASCII.  The table here is exact for all code points below `0x100`
(ASCII alphanumerics plus the Latin-1 letters and numeral signs `0xAA`,
`0xB2`, `0xB3`, `0xB5`, `0xB9`, `0xBA`, `0xBC`-`0xBE`, `0xC0`-`0xFF`
without the multiplication and division signs `0xD7`, `0xF7`); code
points at `0x100` and above are conservatively treated as
non-alphanumeric. -/
def pyIsAlnum (c : Char) : Bool :=
  c.isAlphanum
  || c.toNat == 0xAA
  || inRange 0xB2 0xB3 c.toNat
  || c.toNat == 0xB5
  || c.toNat == 0xB9
  || c.toNat == 0xBA
  || inRange 0xBC 0xBE c.toNat
  || (inRange 0xC0 0xFF c.toNat && c.toNat != 0xD7 && c.toNat != 0xF7)

/-- The character filter of `src/main.py` line 109:
`c.isalnum() or c in ('_', '-', '.')`. -/
def allowedChar (c : Char) : Bool :=
  pyIsAlnum c || c == '_' || c == '-' || c == '.'

/-- The output format enum of `src/main.py` (`class OutputFormat`). -/
inductive OutputFormat where
  | pdf
  | docx
deriving DecidableEq

/-- The `.value` of the string enum: the extension without the dot. -/
def OutputFormat.value : OutputFormat → Str
  | .pdf => "pdf".data
  | .docx => "docx".data

/-- Python `request.output_format.upper()` on the enum value. -/
def OutputFormat.upper : OutputFormat → Str
  | .pdf => "PDF".data
  | .docx => "DOCX".data

/-- Python `s.rsplit(sep, 1)[0]` for a one-character separator: everything
strictly before the last occurrence of the separator. -/
def dropLastExt (l : Str) : Str :=
  (((l.reverse).dropWhile (fun c => c != '.')).drop 1).reverse

/-- Lines 103-106 of `src/main.py`: if the requested filename does not end
with a dot followed by the format extension, strip the part after the last
dot (when a dot is present) and append the correct extension. -/
def fixupFilename (filename : Str) (ext : Str) : Str :=
  if ('.' :: ext).isSuffixOf filename then filename
  else (if filename.contains '.' then dropLastExt filename else filename) ++ '.' :: ext

/-- Line 109 of `src/main.py`: keep only the characters accepted by
`allowedChar`. -/
def sanitizeChars (l : Str) : Str :=
  l.filter allowedChar

/-- The safe artifact name computed by `convert_html_to_pdf`
(lines 99-109): extension fix-up followed by character sanitization. -/
def safeFilename (filename : Str) (fmt : OutputFormat) : Str :=
  sanitizeChars (fixupFilename filename fmt.value)

/-- The keyword arguments of the `page.pdf` call (lines 178-190 of
`src/main.py`). -/
structure PdfOptions where
  format : Str
  print_background : Bool
  prefer_css_page_size : Bool
  margin_top : Str
  margin_bottom : Str
  margin_left : Str
  margin_right : Str
  display_header_footer : Bool
deriving DecidableEq

/-- The fixed page policy passed to `page.pdf` by `generate_pdf`. -/
def pagePdfOptions : PdfOptions :=
  { format := "A4".data
    print_background := true
    prefer_css_page_size := true
    margin_top := "2cm".data
    margin_bottom := "2cm".data
    margin_left := "1.5cm".data
    margin_right := "1.5cm".data
    display_header_footer := false }

/-- One playwright page interaction, as recorded in the execution trace of
`generate_pdf`. -/
inductive PdfEvent where
  | launch (headless : Bool) (args : List Str)
  | newPage
  | setContent (html : Str) (waitUntil : Str) (timeout : Nat)
  | printPdf (path : Str) (options : PdfOptions)
  | close
deriving DecidableEq

/-- One step of `generate_docx`, as recorded in its execution trace. -/
inductive DocxEvent where
  | writeTemp (path : Str) (content : Str)
  | runPandoc (cmd : List Str)
  | removeTemp (path : Str)
deriving DecidableEq

/-- The mutable world a conversion call touches: whether a launched
browser is still open, whether the transient HTML file currently exists,
and the traces of the operations performed. -/
structure World where
  browserOpen : Bool
  tmpHtmlExists : Bool
  pdfTrace : List PdfEvent
  docxTrace : List DocxEvent
deriving DecidableEq

/-- The world at the start of a request: no browser, no transient file. -/
def initialWorld : World :=
  { browserOpen := false, tmpHtmlExists := false, pdfTrace := [], docxTrace := [] }

/-- A Python statement sequence: it transforms the world and either
returns a value or raises an exception carrying a message string. -/
def Act (α : Type) : Type := World → Except Str α × World

/-- Sequencing of two statements; an exception skips the continuation. -/
def bindAct {α β : Type} (x : Act α) (f : α → Act β) : Act β := fun w =>
  match x w with
  | (.ok a, w1) => f a w1
  | (.error m, w1) => (.error m, w1)

/-- `raise Exception(m)`. -/
def raiseAct {α : Type} (m : Str) : Act α := fun w =>
  (.error m, w)

/-- Python `try: body finally: fin`.  The final block always runs; when it
raises, its exception replaces the exception of the body (exactly the
Python semantics of an exception escaping a `finally` block). -/
def tryFinallyAct {α : Type} (body : Act α) (fin : Act Unit) : Act α := fun w =>
  match body w with
  | (.ok a, w1) =>
    match fin w1 with
    | (.ok _, w2) => (.ok a, w2)
    | (.error m, w2) => (.error m, w2)
  | (.error m, w1) =>
    match fin w1 with
    | (.ok _, w2) => (.error m, w2)
    | (.error m2, w2) => (.error m2, w2)

/-- Python `try: body except ...: handler`, with the handler receiving the
payload of the raised exception. -/
def tryExceptAct {α : Type} (body : Act α) (handler : Str → Act α) : Act α := fun w =>
  match body w with
  | (.ok a, w1) => (.ok a, w1)
  | (.error m, w1) => handler m w1

/-- The command-line arguments passed to `p.chromium.launch`
(lines 157-166 of `src/main.py`). -/
def chromiumArgs : List Str :=
  [('-' :: "-no-sandbox".data), ('-' :: "-disable-setuid-sandbox".data),
   ('-' :: "-disable-dev-shm-usage".data), ('-' :: "-disable-gpu".data),
   ('-' :: "-no-first-run".data), ('-' :: "-no-zygote".data),
   ('-' :: "-single-process".data), ('-' :: "-disable-extensions".data)]

/-- Environment of one `generate_pdf` call: for each playwright operation,
`none` means the operation succeeds and `some m` means it raises an
exception whose string form is `m` (for `set_content` this includes the
case of the 30000 ms `networkidle` timeout expiring). -/
structure PdfEnv where
  launchErr : Option Str
  newPageErr : Option Str
  setContentErr : Option Str
  printErr : Option Str
deriving DecidableEq

/-- `browser = await p.chromium.launch(headless=True, args=[...])`.  On
success a browser process is now open. -/
def chromiumLaunch (env : PdfEnv) : Act Unit := fun w =>
  match env.launchErr with
  | some m => (.error m, w)
  | none =>
    (.ok (), { w with browserOpen := true,
                      pdfTrace := w.pdfTrace ++ [PdfEvent.launch true chromiumArgs] })

/-- `page = await browser.new_page()`. -/
def browserNewPage (env : PdfEnv) : Act Unit := fun w =>
  match env.newPageErr with
  | some m => (.error m, w)
  | none => (.ok (), { w with pdfTrace := w.pdfTrace ++ [PdfEvent.newPage] })

/-- `await page.set_content(html, wait_until='networkidle', timeout=30000)`:
the HTML is loaded directly into the page (no navigation), and the call
waits for network quiescence, bounded by 30000 ms. -/
def pageSetContent (env : PdfEnv) (html : Str) : Act Unit := fun w =>
  match env.setContentErr with
  | some m => (.error m, w)
  | none =>
    (.ok (), { w with pdfTrace :=
                 w.pdfTrace ++ [PdfEvent.setContent html "networkidle".data 30000] })

/-- `await page.pdf(path=str(output_path), ...)` with the fixed page
policy `pagePdfOptions`. -/
def pagePrintPdf (env : PdfEnv) (output_path : Str) : Act Unit := fun w =>
  match env.printErr with
  | some m => (.error m, w)
  | none =>
    (.ok (), { w with pdfTrace :=
                 w.pdfTrace ++ [PdfEvent.printPdf output_path pagePdfOptions] })

/-- `await browser.close()` in the `finally` block: the browser process is
no longer open afterwards. -/
def browserClose : Act Unit := fun w =>
  (.ok (), { w with browserOpen := false, pdfTrace := w.pdfTrace ++ [PdfEvent.close] })

/-- `generate_pdf` (lines 152-193 of `src/main.py`): launch chromium, then
inside `try ... finally browser.close()` create a page, load the HTML and
print it to `output_path`.  The enclosing `async with async_playwright()`
context only manages the playwright driver itself and is not modelled. -/
def generate_pdf (html : Str) (output_path : Str) (env : PdfEnv) : Act Unit :=
  bindAct (chromiumLaunch env) (fun _ =>
    tryFinallyAct
      (bindAct (browserNewPage env) (fun _ =>
        bindAct (pageSetContent env html) (fun _ =>
          pagePrintPdf env output_path)))
      browserClose)

/-- Environment of one `generate_docx` call.  `tempCreateErr` drives
`tempfile.NamedTemporaryFile` (failure means no file was created),
`writeErr` drives the `tmp.write(html)` call made after the file already
exists, `pandocStderr = some s` means `subprocess.run` raises
`CalledProcessError` (nonzero exit) with stderr `s`, and `removeErr`
drives the `os.remove` call of the `finally` block. -/
structure DocxEnv where
  tempCreateErr : Option Str
  writeErr : Option Str
  tmpPath : Str
  pandocStderr : Option Str
  removeErr : Option Str
  referenceDocExists : Bool
deriving DecidableEq

/-- The pandoc command line built by `generate_docx` (lines 206-217),
with the reference document appended when `/app/reference.docx` exists. -/
def pandocCmd (env : DocxEnv) (output_path : Str) : List Str :=
  let base := ["pandoc".data, env.tmpPath, "-f".data, "html".data,
               "-t".data, "docx".data, "-o".data, output_path]
  if env.referenceDocExists then
    base ++ [('-' :: "-reference-doc".data), "/app/reference.docx".data]
  else base

/-- Lines 200-202: `with tempfile.NamedTemporaryFile(...) as tmp:
tmp.write(html); tmp_html_path = tmp.name`.  When the write raises after
the file has been created, the file exists but the statement fails. -/
def writeTempHtml (env : DocxEnv) (html : Str) : Act Str := fun w =>
  match env.tempCreateErr with
  | some m => (.error m, w)
  | none =>
    match env.writeErr with
    | some m => (.error m, { w with tmpHtmlExists := true })
    | none =>
      (.ok env.tmpPath,
       { w with tmpHtmlExists := true,
                docxTrace := w.docxTrace ++ [DocxEvent.writeTemp env.tmpPath html] })

/-- `subprocess.run(pandoc_cmd, capture_output=True, text=True,
check=True)`: with a nonzero exit status this raises `CalledProcessError`;
the exception payload carries the stderr text the handler reads. -/
def runPandoc (env : DocxEnv) (output_path : Str) : Act Unit := fun w =>
  let w1 := { w with docxTrace := w.docxTrace ++ [DocxEvent.runPandoc (pandocCmd env output_path)] }
  match env.pandocStderr with
  | some s => (.error s, w1)
  | none => (.ok (), w1)

/-- The `finally` block (lines 232-235): `if os.path.exists(tmp_html_path):
os.remove(tmp_html_path)`.  The `os.remove` call is not guarded, so its
failure raises out of the `finally` block. -/
def removeTempHtml (env : DocxEnv) : Act Unit := fun w =>
  if w.tmpHtmlExists then
    match env.removeErr with
    | some m => (.error m, w)
    | none =>
      (.ok (), { w with tmpHtmlExists := false,
                        docxTrace := w.docxTrace ++ [DocxEvent.removeTemp env.tmpPath] })
  else (.ok (), w)

/-- `generate_docx` (lines 196-238 of `src/main.py`): write the HTML to a
transient file, run pandoc inside `try ... except CalledProcessError ...
finally remove`, and wrap any escaping exception as
`DOCX generatie fout: ...`. -/
def generate_docx (html : Str) (output_path : Str) (env : DocxEnv) : Act Unit :=
  tryExceptAct
    (bindAct (writeTempHtml env html) (fun _tmp =>
      tryFinallyAct
        (tryExceptAct (runPandoc env output_path)
          (fun stderr => raiseAct ("Pandoc conversie fout: ".data ++ stderr)))
        (removeTempHtml env)))
    (fun m => raiseAct ("DOCX generatie fout: ".data ++ m))

deriving instance DecidableEq for Except

/-- `fastapi.HTTPException`, reduced to the two fields the service uses. -/
structure HTTPException where
  status_code : Nat
  detail : Str
deriving DecidableEq

/-- `str(e)` for a starlette/fastapi `HTTPException`: the status code,
a colon-space, and the detail. -/
def strHTTPException (e : HTTPException) : Str :=
  (Nat.repr e.status_code).data ++ ": ".data ++ e.detail

/-- The request body of the `/convert` endpoint (`class ConversionRequest`
of `src/main.py`).  Pydantic models are mutable: the handler reassigns the
`filename` field, so the pipeline is given the whole record and returns
its final state. -/
structure ConversionRequest where
  html : Str
  filename : Str
  output_format : OutputFormat
  return_base64 : Bool
deriving DecidableEq

/-- The successful response body assembled by `convert_html_to_pdf`
(`url`, `size_kb`, `format`, and `base64` only when requested). -/
structure ConversionResponse where
  url : Str
  size_kb : ℚ
  format : Str
  base64 : Option Str
deriving DecidableEq

/-- The base64 alphabet used by `base64.b64encode`. -/
def base64Alphabet : Str :=
  "ABCDEFGHIJKLMNOPQRSTUVWXYZabcdefghijklmnopqrstuvwxyz0123456789+/".data

/-- The base64 digit for a 6-bit value. -/
def base64Digit (n : Nat) : Char :=
  base64Alphabet.getD n '='

/-- `base64.b64encode(bytes).decode('utf-8')` on a byte list. -/
def base64Encode : List Nat → Str
  | [] => []
  | [b1] =>
    [base64Digit (b1 / 4), base64Digit (b1 % 4 * 16), '=', '=']
  | [b1, b2] =>
    [base64Digit (b1 / 4), base64Digit (b1 % 4 * 16 + b2 / 16),
     base64Digit (b2 % 16 * 4), '=']
  | b1 :: b2 :: b3 :: rest =>
    [base64Digit (b1 / 4), base64Digit (b1 % 4 * 16 + b2 / 16),
     base64Digit (b2 % 16 * 4 + b3 / 64), base64Digit (b3 % 64)]
    ++ base64Encode rest

/-- `round(output_path.stat().st_size / 1024, 2)` over exact rationals:
the kilobyte size rounded to two decimal places, computed as
`(sizeBytes * 200 + 1024) / 2048` hundredths with natural division
(half-up rounding; the Python original computes with binary floats and
banker rounding, which agrees on the sizes considered here). -/
def round2KB (sizeBytes : Nat) : ℚ :=
  mkRat ((sizeBytes * 200 + 1024) / 2048) 100

/-- `os.getenv("RENDER_EXTERNAL_URL", "http://localhost:8000")`. -/
def baseUrl : Option Str → Str
  | some u => u
  | none => "http://localhost:8000".data

/-- The string form of the `FileNotFoundError` raised by
`output_path.stat()` on a missing file (the quoted path of the original
message is elided). -/
def fileNotFoundMsg : Str :=
  "[Errno 2] No such file or directory".data

/-- The output directory `/app/static/output` of `src/main.py`. -/
def OUTPUT_DIR : Str :=
  "/app/static/output".data

/-- The detail string of the `HTTPException` raised by the `except` block
of `convert_html_to_pdf` (lines 146-149). -/
def convertErrDetail (fmt : OutputFormat) (cause : Str) : Str :=
  "Fout bij het converteren van HTML naar ".data ++ fmt.upper ++ ": ".data ++ cause

/-- Environment of one `/convert` request: the environments of the two
generators, the result of `output_path.stat()` after generation (`none`
models `FileNotFoundError`, `some n` a file of `n` bytes), the
`RENDER_EXTERNAL_URL` variable, and the bytes read back for the optional
base64 payload. -/
structure ConvertEnv where
  pdf : PdfEnv
  docx : DocxEnv
  statSize : Option Nat
  renderExternalUrl : Option Str
  fileBytes : List Nat
deriving DecidableEq

/-- The body of the `try` block of `convert_html_to_pdf` after the
filename fix-up, together with the `except` block that converts any
escaping exception into an `HTTPException` with status 500.  `req1` is the
request with its already-corrected filename. -/
def convertBody (req1 : ConversionRequest) (env : ConvertEnv) :
    Except HTTPException ConversionResponse × World :=
  let safe := sanitizeChars req1.filename
  let output_path := OUTPUT_DIR ++ '/' :: safe
  let gen : Act Unit :=
    match req1.output_format with
    | .pdf => generate_pdf req1.html output_path env.pdf
    | .docx => generate_docx req1.html output_path env.docx
  match gen initialWorld with
  | (.error m, w) =>
    (.error { status_code := 500, detail := convertErrDetail req1.output_format m }, w)
  | (.ok _, w) =>
    match env.statSize with
    | none =>
      (.error { status_code := 500,
                detail := convertErrDetail req1.output_format fileNotFoundMsg }, w)
    | some size =>
      let file_url := baseUrl env.renderExternalUrl ++ "/output/".data ++ safe
      (.ok { url := file_url
             size_kb := round2KB size
             format := req1.output_format.value
             base64 := if req1.return_base64 then some (base64Encode env.fileBytes) else none }, w)

/-- The full outcome of one `/convert` request: the HTTP result, the final
state of the (mutated) request object, and the final world. -/
structure ConvertOutcome where
  result : Except HTTPException ConversionResponse
  request : ConversionRequest
  world : World
deriving DecidableEq

/-- `convert_html_to_pdf` (lines 87-149 of `src/main.py`): fix up the
`filename` field in place (lines 103-106 reassign `request.filename`),
sanitize it, run the generator matching the output format, stat the final
artifact, and assemble the response; any exception becomes an
`HTTPException` with status 500. -/
def convert_html_to_pdf (req : ConversionRequest) (env : ConvertEnv) : ConvertOutcome :=
  let req1 := { req with filename := fixupFilename req.filename req.output_format.value }
  let out := convertBody req1 env
  { result := out.1, request := req1, world := out.2 }

/-- `delete_pdf` (lines 241-252 of `src/main.py`): the `DELETE
/output/filename` handler.  The body raises `HTTPException(404)` for a
missing file, but the surrounding `except Exception` clause also catches
`HTTPException` and re-raises it as a status-500 `HTTPException` whose
detail is `str(e)`; a failing `unlink` (modelled by `unlinkErr`) is
likewise converted to a 500. -/
def delete_pdf (filename : Str) (fileExists : Bool) (unlinkErr : Option Str) :
    Except HTTPException Str :=
  if fileExists then
    match unlinkErr with
    | some m => .error { status_code := 500, detail := m }
    | none => .ok ("Bestand ".data ++ filename ++ " succesvol verwijderd".data)
  else
    .error { status_code := 500,
             detail := strHTTPException { status_code := 404,
                                          detail := "Bestand niet gevonden".data } }

/-- A fully succeeding playwright environment. -/
def pdfOkEnv : PdfEnv :=
  { launchErr := none, newPageErr := none, setContentErr := none, printErr := none }

/-- A `generate_docx` environment where pandoc exits nonzero. -/
def docxPandocFailEnv : DocxEnv :=
  { tempCreateErr := none, writeErr := none, tmpPath := "/tmp/tmp1.html".data,
    pandocStderr := some "boom".data, removeErr := none, referenceDocExists := false }

/-- A `generate_docx` environment where writing the HTML into the freshly
created temp file raises. -/
def docxWriteFailEnv : DocxEnv :=
  { tempCreateErr := none, writeErr := some "No space left on device".data,
    tmpPath := "/tmp/tmp1.html".data, pandocStderr := none, removeErr := none,
    referenceDocExists := false }

/-- A `generate_docx` environment where pandoc exits nonzero and the
`os.remove` of the `finally` block also raises. -/
def docxMaskEnv : DocxEnv :=
  { tempCreateErr := none, writeErr := none, tmpPath := "/tmp/tmp1.html".data,
    pandocStderr := some "pandoc boom".data, removeErr := some "perm denied".data,
    referenceDocExists := false }

/-- `docxMaskEnv` with a succeeding `os.remove`. -/
def docxNoMaskEnv : DocxEnv :=
  { docxMaskEnv with removeErr := none }

/-- A request for `doc` as PDF without inline payload. -/
def reqPdfDoc : ConversionRequest :=
  { html := "<p>x</p>".data, filename := "doc".data, output_format := OutputFormat.pdf,
    return_base64 := false }

/-- A request whose filename already carries the right extension. -/
def reqNamedPdf : ConversionRequest :=
  { reqPdfDoc with filename := "test.pdf".data }

/-- A request for `doc` as DOCX. -/
def reqDocxBoom : ConversionRequest :=
  { reqPdfDoc with output_format := OutputFormat.docx }

/-- A `/convert` environment where everything succeeds but the final
artifact stats at zero bytes. -/
def envZeroByte : ConvertEnv :=
  { pdf := pdfOkEnv
    docx := { tempCreateErr := none, writeErr := none, tmpPath := "/tmp/tmp1.html".data,
              pandocStderr := none, removeErr := none, referenceDocExists := false }
    statSize := some 0
    renderExternalUrl := none
    fileBytes := [] }

/-- `envZeroByte` with a pandoc failure carrying stderr `boom`. -/
def envPandocBoom : ConvertEnv :=
  { envZeroByte with docx := { envZeroByte.docx with pandocStderr := some "boom".data } }

/-- The dot-extension characters of both formats pass the sanitizer. -/
theorem extAllowed (fmt : OutputFormat) : ∀ c ∈ '.' :: fmt.value, allowedChar c = true := by
  cases fmt <;> decide

/-- Sanitization distributes over a suffix of allowed characters. -/
theorem sanitizeChars_append_allowed (l s : Str) (hs : ∀ c ∈ s, allowedChar c = true) :
    sanitizeChars (l ++ s) = sanitizeChars l ++ s := by
  unfold sanitizeChars
  rw [List.filter_append, List.filter_eq_self.mpr hs]

/-- Sanitization preserves a suffix made of allowed characters. -/
theorem isSuffixOf_sanitizeChars (l s : Str) (hs : ∀ c ∈ s, allowedChar c = true)
    (h : s.isSuffixOf l = true) : s.isSuffixOf (sanitizeChars l) = true := by
  obtain ⟨t, ht⟩ := List.isSuffixOf_iff_suffix.mp h
  rw [← ht, sanitizeChars_append_allowed t s hs]
  exact List.isSuffixOf_iff_suffix.mpr (List.suffix_append _ _)

/-- The extension fix-up always yields a name ending in the extension. -/
theorem fixupFilename_isSuffixOf (fn ext : Str) :
    ('.' :: ext).isSuffixOf (fixupFilename fn ext) = true := by
  unfold fixupFilename
  split
  · assumption
  · exact List.isSuffixOf_iff_suffix.mpr (List.suffix_append _ _)

/-- The sanitized artifact name always ends in the format extension. -/
theorem safeFilename_isSuffixOf (fn : Str) (fmt : OutputFormat) :
    ('.' :: fmt.value).isSuffixOf (safeFilename fn fmt) = true :=
  isSuffixOf_sanitizeChars _ _ (extAllowed fmt) (fixupFilename_isSuffixOf fn fmt.value)

/-- Claim C1: for every HTML input, destination path and environment
(including exceptions raised while creating the page, loading the content
or printing the PDF), `generate_pdf` ends with the launched browser
closed; it never returns or propagates an error with the browser still
open. -/
theorem generate_pdf_closes_browser (html output_path : Str) (env : PdfEnv) :
    ((generate_pdf html output_path env) initialWorld).2.browserOpen = false := by
  obtain ⟨l, n, s, p⟩ := env
  cases l <;> cases n <;> cases s <;> cases p <;> rfl

/-- Claim C2 (amended), counterexample to the original: when writing the
HTML into the just-created temp file fails, `generate_docx` propagates the
wrapped error while the transient HTML file still exists; no deletion is
attempted because the `finally` block is entered only after the write. -/
theorem generate_docx_write_failure_leaks_tmp :
    ((generate_docx "<p>x</p>".data "/app/static/output/d.docx".data docxWriteFailEnv)
        initialWorld).2.tmpHtmlExists = true ∧
    ((generate_docx "<p>x</p>".data "/app/static/output/d.docx".data docxWriteFailEnv)
        initialWorld).1 =
      Except.error ("DOCX generatie fout: No space left on device".data) := by
  decide

/-- Claim C2 (amended): once past the temp-file write, `generate_docx`
deletes the transient HTML file on every path — success, temp-file
creation failure (no file was made) and nonzero pandoc exit — provided
the write into the temp file and the deletion itself do not raise. -/
theorem generate_docx_removes_tmp_html (html output_path : Str) (env : DocxEnv)
    (h : env.writeErr = none ∧ env.removeErr = none) :
    ((generate_docx html output_path env) initialWorld).2.tmpHtmlExists = false := by
  obtain ⟨tc, we, tp, ps, re, rd⟩ := env
  obtain ⟨h1, h2⟩ := h
  dsimp only at h1 h2
  subst h1; subst h2
  cases tc <;> cases ps <;> rfl

/-- Witness for C2: with a nonzero pandoc exit and succeeding file
primitives, the transient HTML file is gone at the end of the call. -/
theorem generate_docx_removes_tmp_html_witness :
    (docxPandocFailEnv.writeErr = none ∧ docxPandocFailEnv.removeErr = none) ∧
    ((generate_docx "<p>x</p>".data "/app/static/output/d.docx".data docxPandocFailEnv)
        initialWorld).2.tmpHtmlExists = false :=
  ⟨by decide, generate_docx_removes_tmp_html _ _ _ ⟨rfl, rfl⟩⟩

/-- Claim C3, counterexample: the sanitizer keeps every character Python
regards as alphanumeric, which includes non-ASCII letters; the sanitized
name for a filename containing a Latin small letter e with acute accent is
not drawn from the ASCII class of the claim. -/
theorem safeFilename_not_ascii_only :
    ¬ (∀ c ∈ safeFilename ('é' :: ".pdf".data) OutputFormat.pdf,
        (c.isAlphanum || c == '_' || c == '-' || c == '.') = true) := by
  decide

/-- Claim C3 (amended): for every requested filename and output format the
sanitized artifact name contains only characters that Python's `isalnum`
accepts or that lie in the set of underscore, hyphen and dot, and it
always ends with the extension matching the requested format. -/
theorem safeFilename_charset_and_extension (fn : Str) (fmt : OutputFormat) :
    (∀ c ∈ safeFilename fn fmt, allowedChar c = true) ∧
    ('.' :: fmt.value).isSuffixOf (safeFilename fn fmt) = true :=
  ⟨fun _c hc => List.of_mem_filter hc, safeFilename_isSuffixOf fn fmt⟩

/-- Witness for C3 at a concrete filename with a wrong extension. -/
theorem safeFilename_charset_and_extension_witness :
    allowedChar 't' = true ∧
    ('.' :: OutputFormat.value OutputFormat.docx).isSuffixOf
      (safeFilename "test.pdf".data OutputFormat.docx) = true :=
  ⟨(safeFilename_charset_and_extension "test.pdf".data OutputFormat.docx).1 't' (by decide),
   (safeFilename_charset_and_extension "test.pdf".data OutputFormat.docx).2⟩

/-- Claim C4: when no playwright call raises, `generate_pdf` loads the
HTML directly into the page with `set_content`, waiting for network
quiescence bounded by 30000 ms, and only afterwards prints with the fixed
page policy: A4, backgrounds included, CSS page-size rules preferred,
margins 2 cm top and bottom and 1.5 cm left and right, and no browser
header or footer. -/
theorem generate_pdf_load_then_print_policy (html output_path : Str) (env : PdfEnv)
    (h : env = pdfOkEnv) :
    ((generate_pdf html output_path env) initialWorld).2.pdfTrace =
      [PdfEvent.launch true chromiumArgs, PdfEvent.newPage,
       PdfEvent.setContent html "networkidle".data 30000,
       PdfEvent.printPdf output_path pagePdfOptions, PdfEvent.close] ∧
    ((generate_pdf html output_path env) initialWorld).1 = Except.ok () := by
  subst h
  exact ⟨rfl, rfl⟩

/-- Witness for C4 on a concrete document. -/
theorem generate_pdf_load_then_print_policy_witness :
    pdfOkEnv = pdfOkEnv ∧
    ((generate_pdf "<h1>Hi</h1>".data "/app/static/output/test.pdf".data pdfOkEnv)
        initialWorld).2.pdfTrace =
      [PdfEvent.launch true chromiumArgs, PdfEvent.newPage,
       PdfEvent.setContent "<h1>Hi</h1>".data "networkidle".data 30000,
       PdfEvent.printPdf "/app/static/output/test.pdf".data pagePdfOptions, PdfEvent.close] :=
  ⟨rfl, (generate_pdf_load_then_print_policy "<h1>Hi</h1>".data
          "/app/static/output/test.pdf".data pdfOkEnv rfl).1⟩

/-- Claim C5, counterexample: the failure surfaced to the caller for a
nonzero pandoc exit with stderr `boom` is a plain status-500
`HTTPException` holding a single concatenated message; the error value
carries no stage field, and its detail is not the underlying cause
alone. -/
theorem convert_failure_not_stage_tagged :
    (convert_html_to_pdf reqDocxBoom envPandocBoom).result =
      Except.error ⟨500,
        ("Fout bij het converteren van HTML naar DOCX: DOCX generatie fout: Pandoc conversie fout: boom").data⟩ ∧
    (("Fout bij het converteren van HTML naar DOCX: DOCX generatie fout: Pandoc conversie fout: boom").data : Str)
      ≠ "boom".data := by
  decide

/-- Claim C5 (amended): a failing DOCX conversion with a nonzero pandoc
exit yields an HTTP 500 error whose detail is the fixed wrapper text with
the external diagnostic text appearing verbatim as its final segment; no
structured render/transcode/io stage identifier accompanies it. -/
theorem convert_pandoc_failure_500_with_stderr (req : ConversionRequest)
    (env : ConvertEnv) (s : Str)
    (h : req.output_format = OutputFormat.docx ∧ env.docx.tempCreateErr = none ∧
         env.docx.writeErr = none ∧ env.docx.pandocStderr = some s ∧
         env.docx.removeErr = none) :
    (convert_html_to_pdf req env).result =
      Except.error ⟨500,
        ("Fout bij het converteren van HTML naar DOCX: DOCX generatie fout: Pandoc conversie fout: ").data ++ s⟩ := by
  obtain ⟨rh, rf, rfmt, rb⟩ := req
  obtain ⟨⟨pl, pn, ps, pp⟩, ⟨tc, we, tp, pst, re, rd⟩, st, ru, fb⟩ := env
  obtain ⟨h1, h2, h3, h4, h5⟩ := h
  dsimp only at h1 h2 h3 h4 h5
  subst h1; subst h2; subst h3; subst h4; subst h5
  rfl

/-- Witness for C5 at the concrete stderr `boom`. -/
theorem convert_pandoc_failure_500_with_stderr_witness :
    (reqDocxBoom.output_format = OutputFormat.docx ∧
     envPandocBoom.docx.tempCreateErr = none ∧
     envPandocBoom.docx.writeErr = none ∧
     envPandocBoom.docx.pandocStderr = some "boom".data ∧
     envPandocBoom.docx.removeErr = none) ∧
    (convert_html_to_pdf reqDocxBoom envPandocBoom).result =
      Except.error ⟨500,
        ("Fout bij het converteren van HTML naar DOCX: DOCX generatie fout: Pandoc conversie fout: ").data ++ "boom".data⟩ :=
  ⟨by decide, convert_pandoc_failure_500_with_stderr reqDocxBoom envPandocBoom
      "boom".data (by decide)⟩

/-- Claim C6, counterexample: with every stage succeeding and the final
artifact statting at zero bytes, the orchestrator returns a successful
response with `size_kb` zero instead of failing. -/
theorem convert_accepts_zero_byte_artifact :
    envZeroByte.statSize = some 0 ∧
    (convert_html_to_pdf reqPdfDoc envZeroByte).result =
      Except.ok { url := "http://localhost:8000/output/doc.pdf".data, size_kb := 0,
                  format := "pdf".data, base64 := none } := by
  decide

/-- Claim C6 (amended): after generation the orchestrator stats the final
artifact; when the stat raises because the file is absent the request
fails with an untagged 500 error, but when the file exists the request
succeeds whatever the size is, so a zero-byte artifact produces a
successful result. -/
theorem convert_stat_missing_fails (req : ConversionRequest) (env : ConvertEnv)
    (h : req.output_format = OutputFormat.pdf ∧ env.pdf = pdfOkEnv) :
    (env.statSize = none →
      (convert_html_to_pdf req env).result =
        Except.error ⟨500, convertErrDetail OutputFormat.pdf fileNotFoundMsg⟩) ∧
    (∀ n, env.statSize = some n →
      ∃ r, (convert_html_to_pdf req env).result = Except.ok r ∧ r.size_kb = round2KB n) := by
  obtain ⟨rh, rf, rfmt, rb⟩ := req
  obtain ⟨pe, de, st, ru, fb⟩ := env
  obtain ⟨h1, h2⟩ := h
  dsimp only at h1 h2
  subst h1; subst h2
  constructor
  · intro hs; dsimp only at hs; subst hs
    rfl
  · intro n hs; dsimp only at hs; subst hs
    cases rb <;> exact ⟨_, rfl, rfl⟩

/-- Witness for C6: the zero-byte scenario through the amended theorem. -/
theorem convert_stat_missing_fails_witness :
    (reqPdfDoc.output_format = OutputFormat.pdf ∧ envZeroByte.pdf = pdfOkEnv) ∧
    ∃ r, (convert_html_to_pdf reqPdfDoc envZeroByte).result = Except.ok r ∧
         r.size_kb = round2KB 0 :=
  ⟨by decide, (convert_stat_missing_fails reqPdfDoc envZeroByte (by decide)).2 0 rfl⟩

/-- Claim C7, counterexample: the pipeline reassigns the `filename` field
of the accepted request in place; a request for `doc` as PDF ends with its
filename rewritten to `doc.pdf`. -/
theorem convert_mutates_request_filename :
    (convert_html_to_pdf reqPdfDoc envZeroByte).request.filename = "doc.pdf".data ∧
    reqPdfDoc.filename = "doc".data ∧
    ("doc.pdf".data : Str) ≠ "doc".data := by
  decide

/-- Claim C7 (amended): the html, output-format and inline-payload fields
of the request are never modified by the pipeline; the `filename` field is
rewritten in place so that it ends with the extension of the requested
format, and it is left unchanged exactly when it already ends with that
extension. -/
theorem convert_request_field_frame (req : ConversionRequest) (env : ConvertEnv) :
    (convert_html_to_pdf req env).request.html = req.html ∧
    (convert_html_to_pdf req env).request.output_format = req.output_format ∧
    (convert_html_to_pdf req env).request.return_base64 = req.return_base64 ∧
    ('.' :: req.output_format.value).isSuffixOf
      (convert_html_to_pdf req env).request.filename = true ∧
    (('.' :: req.output_format.value).isSuffixOf req.filename = true →
      (convert_html_to_pdf req env).request.filename = req.filename) := by
  refine ⟨rfl, rfl, rfl, ?_, ?_⟩
  · exact fixupFilename_isSuffixOf req.filename req.output_format.value
  · intro hs
    show fixupFilename req.filename req.output_format.value = req.filename
    unfold fixupFilename
    rw [if_pos hs]

/-- Witness for C7: a request whose filename is already correct passes
through with every field intact. -/
theorem convert_request_field_frame_witness :
    (convert_html_to_pdf reqNamedPdf envZeroByte).request.html = reqNamedPdf.html ∧
    (convert_html_to_pdf reqNamedPdf envZeroByte).request.filename = reqNamedPdf.filename :=
  ⟨(convert_request_field_frame reqNamedPdf envZeroByte).1,
   (convert_request_field_frame reqNamedPdf envZeroByte).2.2.2.2 (by decide)⟩

/-- Claim C8, counterexample: for an empty requested filename the
sanitized name is the bare extension with an empty base; no nonempty
fallback base name is inserted. -/
theorem safeFilename_empty_no_fallback_base :
    ¬ ∃ b : Str, b ≠ [] ∧ safeFilename [] OutputFormat.pdf = b ++ '.' :: "pdf".data := by
  rintro ⟨b, hb, he⟩
  have h4 : safeFilename [] OutputFormat.pdf = '.' :: "pdf".data := by decide
  rw [h4] at he
  have hlen := congrArg List.length he
  simp only [List.length_append, List.length_cons] at hlen
  have hb0 : b.length = 0 := by omega
  exact hb (List.length_eq_zero.mp hb0)

/-- Claim C8 (amended): sanitization is deterministic and total, and an
empty or entirely-invalid requested filename degrades to the bare dot
extension of the requested format, with an empty base name rather than a
fallback base name. -/
theorem safeFilename_invalid_input_bare_extension (fn : Str) (fmt : OutputFormat)
    (h : ∀ c ∈ fn, allowedChar c = false) :
    safeFilename fn fmt = '.' :: fmt.value := by
  have hsuf : ('.' :: fmt.value).isSuffixOf fn = false := by
    cases hs : ('.' :: fmt.value).isSuffixOf fn with
    | false => rfl
    | true =>
      obtain ⟨t, ht⟩ := List.isSuffixOf_iff_suffix.mp hs
      have hdot : '.' ∈ fn := by
        rw [← ht]; exact List.mem_append.mpr (Or.inr (List.mem_cons_self _ _))
      exact absurd (h '.' hdot) (by decide)
  have hcont : fn.contains '.' = false := by
    cases hc : fn.contains '.' with
    | false => rfl
    | true => exact absurd (h '.' (List.elem_iff.mp hc)) (by decide)
  unfold safeFilename fixupFilename
  rw [hsuf]
  simp only [Bool.false_eq_true, if_false, hcont]
  show sanitizeChars (fn ++ '.' :: fmt.value) = '.' :: fmt.value
  rw [sanitizeChars_append_allowed fn _ (extAllowed fmt)]
  have hnil : sanitizeChars fn = [] := by
    unfold sanitizeChars
    exact List.filter_eq_nil_iff.mpr (fun a ha => by rw [h a ha]; decide)
  rw [hnil, List.nil_append]

/-- Witness for C8 on an entirely-invalid filename. -/
theorem safeFilename_invalid_input_bare_extension_witness :
    (∀ c ∈ ("?!".data : Str), allowedChar c = false) ∧
    safeFilename "?!".data OutputFormat.docx = '.' :: OutputFormat.value OutputFormat.docx :=
  ⟨by decide, safeFilename_invalid_input_bare_extension "?!".data OutputFormat.docx (by decide)⟩

/-- Claim C9, counterexample: when pandoc fails and the `os.remove` of the
transient HTML file also fails, the call propagates the wrapped removal
error instead of the pandoc error, and the transient file survives; the
removal failure changed the outcome and masked the body error. -/
theorem generate_docx_remove_error_masks_pandoc_error :
    ((generate_docx "<p>x</p>".data "/app/static/output/d.docx".data docxMaskEnv)
        initialWorld).1 = Except.error ("DOCX generatie fout: perm denied".data) ∧
    ((generate_docx "<p>x</p>".data "/app/static/output/d.docx".data docxNoMaskEnv)
        initialWorld).1 =
      Except.error ("DOCX generatie fout: Pandoc conversie fout: pandoc boom".data) ∧
    (("DOCX generatie fout: perm denied".data : Str) ≠
      "DOCX generatie fout: Pandoc conversie fout: pandoc boom".data) ∧
    ((generate_docx "<p>x</p>".data "/app/static/output/d.docx".data docxMaskEnv)
        initialWorld).2.tmpHtmlExists = true := by
  decide

/-- Claim C9 (amended): a failure of the transient-file deletion is not
logged-and-ignored; it escalates out of the `finally` block, is wrapped as
the DOCX-generation error, replaces whatever error the conversion body
raised, and leaves the transient file in place. -/
theorem generate_docx_remove_error_escalates (html output_path m : Str) (env : DocxEnv)
    (h : env.tempCreateErr = none ∧ env.writeErr = none ∧ env.removeErr = some m) :
    ((generate_docx html output_path env) initialWorld).1 =
      Except.error ("DOCX generatie fout: ".data ++ m) ∧
    ((generate_docx html output_path env) initialWorld).2.tmpHtmlExists = true := by
  obtain ⟨tc, we, tp, ps, re, rd⟩ := env
  obtain ⟨h1, h2, h3⟩ := h
  dsimp only at h1 h2 h3
  subst h1; subst h2; subst h3
  cases ps <;> exact ⟨rfl, rfl⟩

/-- Witness for C9 at the concrete masking environment. -/
theorem generate_docx_remove_error_escalates_witness :
    (docxMaskEnv.tempCreateErr = none ∧ docxMaskEnv.writeErr = none ∧
     docxMaskEnv.removeErr = some "perm denied".data) ∧
    ((generate_docx "<p>x</p>".data "/app/static/output/d.docx".data docxMaskEnv)
        initialWorld).2.tmpHtmlExists = true :=
  ⟨by decide, (generate_docx_remove_error_escalates "<p>x</p>".data
      "/app/static/output/d.docx".data "perm denied".data docxMaskEnv (by decide)).2⟩

/-- Claim C10, counterexample: the 500 response for a missing file does
not carry the original 404 detail verbatim as its message; the detail is
the string form of the caught `HTTPException`, which prepends the status
code. -/
theorem delete_pdf_detail_not_original :
    delete_pdf "x.pdf".data false none =
      Except.error ⟨500, "404: Bestand niet gevonden".data⟩ ∧
    (("404: Bestand niet gevonden".data : Str) ≠ "Bestand niet gevonden".data) := by
  decide

/-- Claim C10 (amended): for every filename whose file does not exist, the
deletion handler responds with a 500 error rather than a 404 — the 404
`HTTPException` raised in the `try` block is caught by the generic
`except` clause and re-raised as a 500 whose message is the string form of
the original exception, embedding the original detail after the status
code. -/
theorem delete_pdf_missing_file_500 (filename : Str) (unlinkErr : Option Str) :
    delete_pdf filename false unlinkErr =
      Except.error ⟨500, strHTTPException ⟨404, "Bestand niet gevonden".data⟩⟩ ∧
    strHTTPException ⟨404, "Bestand niet gevonden".data⟩ =
      "404: Bestand niet gevonden".data :=
  ⟨rfl, by decide⟩
